import Mathlib

/-!
Shallow embedding of the ingestion pipeline of the canadian_banks_stock_data
repository (notebook `Canadian_banks_yahoo_finance_webscraping.ipynb`, with
`notebooks/00_Web_Scraping.ipynb` a scraping-only copy of the same cells).

The pipeline slice the claims are about:
* cell 10 defines the five-entry `bank_tickers` catalog used by the fetch
  steps; cell 32 re-binds `bank_tickers` to three entries and runs the
  insertion loop over those;
* cells 21-25 / cell 32 normalize a raw CSV: drop the first two rows by
  position (`td_data.iloc[2:]` / `pd.read_csv(..., skiprows=2)`) and rename
  the columns positionally to
  `[date, close_price, high_price, low_price, open_price, volume]`;
  the comment in cell 32 is explicit: rows are inserted
  "without data type conversion" and no row is ever rejected;
* cell 32 persists: one `try` block wraps connection setup and the whole
  loop over banks; for each bank whose CSV file exists, each row is passed to
  `cursor.execute(INSERT INTO stock_prices ...)` with the provider symbol
  `ticker` as first column, and `conn.commit()` runs once after all of one
  bank's rows; the single `except Exception` prints one error message and
  ends the cell;
* cell 18 (`scrape_financial_data`) fetches dividend history, filters it to
  the requested symbol, projects the dividends column, and writes a CSV only
  `if not dividends.empty`.

Raw CSV cells are modelled by their parse class (`RawField`): a cell is a
calendar date, a number, blank, or other text.  The relational store is
modelled as a committed row list plus the pending rows of the open
transaction; `cursor.execute` appends to pending (the INSERT statement has no
conflict handling), `conn.commit` moves pending to committed, and an
exception that escapes the loop leaves the pending rows uncommitted (the
connection is closed without a commit, so they are rolled back).
-/

namespace CanadianBanks

/-- A calendar date as it appears in the CSV date column. -/
structure CalDate where
  year : Nat
  month : Nat
  day : Nat
deriving DecidableEq, Repr

/-- A raw CSV cell, modelled by its parse class: parseable as a calendar
date, parseable as a number, empty, or other text (such as the repeated
provider symbol in a header-artifact row). -/
inductive RawField where
  | text (s : String)
  | blank
  | num (x : Int)
  | date (d : CalDate)
deriving DecidableEq, Repr

/-- A row of the raw price CSV after the positional column rename of cell 25 /
cell 32: `df.columns = [date, close_price, high_price, low_price, open_price,
volume]`. -/
structure RawRow where
  date : RawField
  close_price : RawField
  high_price : RawField
  low_price : RawField
  open_price : RawField
  volume : RawField
deriving DecidableEq, Repr

/-- A field that parses as a calendar date. -/
def isDateField : RawField → Bool
  | .date _ => true
  | _ => false

/-- A field that parses as a number. -/
def isNumField : RawField → Bool
  | .num _ => true
  | _ => false

/-- A well-formed data row: date column a calendar date, all four price
columns and the volume column numeric. -/
def wellFormedRow (r : RawRow) : Bool :=
  isDateField r.date && isNumField r.close_price && isNumField r.high_price &&
    isNumField r.low_price && isNumField r.open_price && isNumField r.volume

/-- Embeds the notebook's normalization of one raw price table: cell 32 reads
the CSV with `skiprows=2` (cell 24 equivalently drops rows with
`td_data.iloc[2:]`), renames the columns positionally, and passes every
remaining row through with no type conversion and no rejection — so the
output is the input minus its first two rows by position, and the count of
rejected rows is always 0. -/
def normalize_price_table (raw : List RawRow) : List RawRow × Nat :=
  (raw.drop 2, 0)

/-- A row of the `stock_prices` table, in the column order of `insert_query`:
`(stock_ticker, date, open_price, high_price, low_price, close_price,
volume)`. -/
structure StoredRow where
  stock_ticker : String
  date : RawField
  open_price : RawField
  high_price : RawField
  low_price : RawField
  close_price : RawField
  volume : RawField
deriving DecidableEq, Repr

/-- The parameter tuple of `cursor.execute(insert_query, (ticker, row[date],
row[open_price], row[high_price], row[low_price], row[close_price],
row[volume]))`: the provider symbol plus the row's fields, reordered. -/
def toStoredRow (ticker : String) (r : RawRow) : StoredRow :=
  { stock_ticker := ticker, date := r.date, open_price := r.open_price,
    high_price := r.high_price, low_price := r.low_price,
    close_price := r.close_price, volume := r.volume }

/-- The destination store: the committed rows of `stock_prices` plus the
pending rows of the connection's open transaction. -/
structure DB where
  committed : List StoredRow
  pending : List StoredRow
deriving DecidableEq, Repr

/-- One `cursor.execute` of `insert_query` that succeeds: a plain INSERT
appends the row to the open transaction (the statement has no conflict
handling). -/
def DB.execInsert (db : DB) (r : StoredRow) : DB :=
  { db with pending := db.pending ++ [r] }

/-- `conn.commit()`: the open transaction's rows become durable. -/
def DB.commit (db : DB) : DB :=
  { committed := db.committed ++ db.pending, pending := [] }

/-- What the insertion cell prints: a per-bank success line, or the single
catch-all error line of the `except Exception` block. -/
inductive Msg where
  | success (bank : String)
  | error
deriving DecidableEq, Repr

/-- Cell 10: the catalog the fetch steps iterate (five banks). -/
def bank_tickers_fetch : List (String × String) :=
  [("TD", "TD.TO"), ("BMO", "BMO.TO"), ("RBC", "RY.TO"),
   ("CIBC", "CM.TO"), ("Scotiabank", "BNS.TO")]

/-- Cell 32: the re-bound catalog the insertion loop iterates (three banks). -/
def bank_tickers : List (String × String) :=
  [("TD", "TD.TO"), ("Scotiabank", "BNS.TO"), ("RBC", "RY.TO")]

/-- One `cursor.execute` of `insert_query`, with `execOk` deciding whether the
store accepts the row (false models a raised constraint violation or type
mismatch); on failure the exception carries the store state at the failure
point. -/
def execRow (execOk : StoredRow → Bool) (db : DB) (r : StoredRow) : Except DB DB :=
  if execOk r then .ok (db.execInsert r) else .error db

/-- The per-row `for _, row in df.iterrows(): cursor.execute(...)` loop: rows
are executed left to right; the first failing row raises, and the rows after
it are never attempted. -/
def execRows (execOk : StoredRow → Bool) : DB → List StoredRow → Except DB DB
  | db, [] => .ok db
  | db, r :: rs =>
    match execRow execOk db r with
    | .ok db' => execRows execOk db' rs
    | .error db' => .error db'

/-- The body of the insertion loop for one bank: if the bank's CSV file is
absent the bank is skipped with no message; otherwise the file is read with
`skiprows=2`, every row is executed, and only after all rows does
`conn.commit()` run, followed by the success print.  A row failure raises out
of the function. -/
def insertBank (execOk : StoredRow → Bool) (files : String → Option (List RawRow))
    (db : DB) (bank ticker : String) : Except DB (DB × List Msg) :=
  match files bank with
  | none => .ok (db, [])
  | some raw =>
    match execRows execOk db ((normalize_price_table raw).1.map (toStoredRow ticker)) with
    | .error db' => .error db'
    | .ok db' => .ok (db'.commit, [Msg.success bank])

/-- The insertion loop over the bank catalog.  The single `try` block wraps
the whole loop, so the first exception ends the run: the `except Exception`
prints one error message, the connection is closed without a commit, and the
pending rows of the failed transaction are rolled back.  On the normal path
each bank's outcome messages accumulate and the loop continues. -/
def insertLoopAux (execOk : StoredRow → Bool) (files : String → Option (List RawRow)) :
    DB → List Msg → List (String × String) → DB × List Msg
  | db, msgs, [] => (db, msgs)
  | db, msgs, (bank, ticker) :: rest =>
    match insertBank execOk files db bank ticker with
    | .error db' => ({ committed := db'.committed, pending := [] }, msgs ++ [Msg.error])
    | .ok (db', m) => insertLoopAux execOk files db' (msgs ++ m) rest

/-- The whole insertion cell: the loop over cell 32's `bank_tickers`, starting
from an empty store, returning the final store and the printed messages. -/
def runInsertion (execOk : StoredRow → Bool)
    (files : String → Option (List RawRow)) : DB × List Msg :=
  insertLoopAux execOk files { committed := [], pending := [] } [] bank_tickers

/-- How many stored rows carry a given (ticker, date) key. -/
def keyCount (store : List StoredRow) (t : String) (d : RawField) : Nat :=
  (store.filter (fun r => r.stock_ticker == t && r.date == d)).length

/-- One row of the provider's shared historical-events endpoint, as
`stock.history(period="max")` returns it: a symbol index level and the
dividends column (the other columns play no role here). -/
structure DivEvent where
  symbol : String
  dividends : Int
deriving DecidableEq, Repr

/-- The dividend slice of `scrape_financial_data` (cell 18): the fetched
history (or the exception a failed fetch raises) is filtered to the rows
whose symbol matches the requested ticker and projected to the dividends
column; the CSV is written only `if not dividends.empty`.  Result:
`.error` when the fetch raised, `.ok none` when nothing is written,
`.ok (some ds)` when the non-empty column is written. -/
def scrapeDividends (fetchResult : Except Unit (List DivEvent)) (ticker : String) :
    Except Unit (Option (List Int)) :=
  match fetchResult with
  | .error e => .error e
  | .ok hist =>
    let dividends := (hist.filter (fun r => r.symbol == ticker)).map (fun r => r.dividends)
    .ok (if dividends.isEmpty then none else some dividends)

/-! ## Concrete sample data -/

/-- The first header-artifact row of a saved CSV: the column row
`Ticker,TD.TO,TD.TO,TD.TO,TD.TO,TD.TO` (the provider symbol repeated). -/
def artifactRow1 : RawRow :=
  { date := .text "Ticker", close_price := .text "TD.TO", high_price := .text "TD.TO",
    low_price := .text "TD.TO", open_price := .text "TD.TO", volume := .text "TD.TO" }

/-- The second header-artifact row: `Date,,,,,` — a label and empty cells. -/
def artifactRow2 : RawRow :=
  { date := .text "Date", close_price := .blank, high_price := .blank,
    low_price := .blank, open_price := .blank, volume := .blank }

/-- A well-formed daily bar. -/
def mkBar (d : CalDate) (c hi lo o v : Int) : RawRow :=
  { date := .date d, close_price := .num c, high_price := .num hi,
    low_price := .num lo, open_price := .num o, volume := .num v }

def bar1 : RawRow := mkBar ⟨2020, 1, 2⟩ 73 74 72 72 1000
def bar2 : RawRow := mkBar ⟨2020, 1, 3⟩ 72 74 71 73 1100
def bar3 : RawRow := mkBar ⟨2020, 1, 6⟩ 74 75 72 72 900
def bar4 : RawRow := mkBar ⟨2020, 1, 7⟩ 75 76 74 74 1200

/-- The end-to-end raw feed of the spec's scenario: two header-artifact rows
followed by four valid daily bars inside 2020-01-02..2020-01-08. -/
def tdFeed : List RawRow := [artifactRow1, artifactRow2, bar1, bar2, bar3, bar4]

/-- A second bank's feed: two header-artifact rows and one valid bar. -/
def scotiaFeed : List RawRow :=
  [artifactRow1, artifactRow2, mkBar ⟨2020, 1, 2⟩ 60 61 59 59 500]

/-- A data row whose fields fail coercion: the date cell is not a calendar
date and the close cell is not a number. -/
def badRow : RawRow :=
  { date := .text "not-a-date", close_price := .text "n/a", high_price := .num 74,
    low_price := .num 72, open_price := .num 72, volume := .num 1000 }

/-! ## Helper lemmas about the row loop -/

/-- Executing rows only ever appends to the open transaction: when the row
loop raises, the committed rows at the failure point are the committed rows
it started from. -/
theorem execRows_error_committed (execOk : StoredRow → Bool) (rows : List StoredRow) :
    ∀ (db db' : DB), execRows execOk db rows = Except.error db' →
      db'.committed = db.committed := by
  induction rows with
  | nil => intro db db' h; simp [execRows] at h
  | cons r rs ih =>
    intro db db' h
    by_cases hok : execOk r
    · simp [execRows, execRow, hok] at h
      simpa [DB.execInsert] using ih (db.execInsert r) db' h
    · simp [execRows, execRow, hok] at h
      rw [h]

/-- When every execute succeeds, the row loop appends the whole batch to the
open transaction. -/
theorem execRows_allOk (rows : List StoredRow) :
    ∀ db : DB, execRows (fun _ => true) db rows =
      Except.ok ⟨db.committed, db.pending ++ rows⟩ := by
  induction rows with
  | nil => intro db; simp [execRows]
  | cons r rs ih =>
    intro db
    simp [execRows, execRow, DB.execInsert, ih]

/-- When every file is present and every execute succeeds, the loop commits,
bank by bank in catalog order, exactly the normalized rows of each bank's
file tagged with that bank's provider symbol, and prints one success line
per bank. -/
theorem insertLoop_allOk (files : String → List RawRow) (banks : List (String × String)) :
    ∀ (db : DB) (msgs : List Msg), db.pending = [] →
      insertLoopAux (fun _ => true) (fun b => some (files b)) db msgs banks =
        ({ committed := db.committed ++
             (banks.map (fun p =>
               (normalize_price_table (files p.1)).1.map (toStoredRow p.2))).flatten,
           pending := [] },
         msgs ++ banks.map (fun p => Msg.success p.1)) := by
  induction banks with
  | nil =>
    intro db msgs hp
    obtain ⟨c, p⟩ := db
    simp only [DB.pending] at hp
    subst hp
    simp [insertLoopAux]
  | cons head tail ih =>
    intro db msgs hp
    obtain ⟨bank, ticker⟩ := head
    obtain ⟨c, p⟩ := db
    simp only [DB.pending] at hp
    subst hp
    simp only [insertLoopAux, insertBank]
    rw [execRows_allOk]
    simp only [DB.commit]
    rw [ih _ _ rfl]
    simp [List.append_assoc]

/-! ## Claim C3 — header-artifact removal -/

/-- C3 (counterexample): the normalizer does not inspect rows structurally —
it drops the first two rows by position.  On a raw table with a single
ill-formed leading artifact row followed by two well-formed bars, structural
inspection would keep both bars, but the code emits only the second: the
well-formed row `bar1` is discarded with the artifacts. -/
theorem C3_counterexample :
    wellFormedRow artifactRow1 = false ∧
    wellFormedRow bar1 = true ∧ wellFormedRow bar2 = true ∧
    (normalize_price_table [artifactRow1, bar1, bar2]).1 = [bar2] ∧
    (normalize_price_table [artifactRow1, bar1, bar2]).1 ≠ [bar1, bar2] := by
  decide

/-- C3 (amended): the normalizer drops exactly the first two rows by position
(`skiprows=2` / `iloc[2:]`), not by structural inspection; for a raw table
whose first two rows are ill-formed header artifacts followed by N
well-formed rows this coincides with structural stripping: exactly the N
well-formed rows are emitted and none is rejected. -/
theorem C3_amended_theorem (a b : RawRow) (good : List RawRow)
    (ha : wellFormedRow a = false) (hb : wellFormedRow b = false)
    (hg : ∀ r ∈ good, wellFormedRow r = true) :
    (normalize_price_table (a :: b :: good)).1 = good ∧
    (normalize_price_table (a :: b :: good)).1.length = good.length ∧
    (normalize_price_table (a :: b :: good)).2 = 0 ∧
    ∀ r ∈ (normalize_price_table (a :: b :: good)).1, wellFormedRow r = true := by
  refine ⟨rfl, rfl, rfl, ?_⟩
  intro r hr
  exact hg r hr

/-- C3 (witness): the amended statement at the concrete two-artifact feed. -/
theorem C3_witness :
    (normalize_price_table [artifactRow1, artifactRow2, bar1]).1 = [bar1] ∧
    (normalize_price_table [artifactRow1, artifactRow2, bar1]).1.length = [bar1].length ∧
    (normalize_price_table [artifactRow1, artifactRow2, bar1]).2 = 0 ∧
    ∀ r ∈ (normalize_price_table [artifactRow1, artifactRow2, bar1]).1,
      wellFormedRow r = true :=
  C3_amended_theorem artifactRow1 artifactRow2 [bar1] (by decide) (by decide) (by decide)

/-! ## Claim C4 — type coercion and row rejection -/

/-- C4 (counterexample): the code performs no coercion and rejects nothing
("without data type conversion"): a row whose date cell is not a calendar
date and whose close cell is not a number survives normalization verbatim
and is not counted as rejected. -/
theorem C4_counterexample :
    wellFormedRow badRow = false ∧
    (normalize_price_table [artifactRow1, artifactRow2, badRow]).1 = [badRow] ∧
    (normalize_price_table [artifactRow1, artifactRow2, badRow]).2 = 0 := by
  decide

/-- C4 (amended): normalization applies no type coercion and excludes no row
after the positional drop of the first two: every emitted row appears
verbatim in the raw input, every row past the first two is emitted, and the
rejected count is always 0. -/
theorem C4_amended_theorem (raw : List RawRow) :
    (∀ r ∈ (normalize_price_table raw).1, r ∈ raw) ∧
    (normalize_price_table raw).1.length = raw.length - 2 ∧
    (normalize_price_table raw).2 = 0 := by
  refine ⟨fun r hr => List.drop_subset 2 raw hr, ?_, rfl⟩
  simp [normalize_price_table]

/-! ## Claim C5 — end-to-end scenario -/

/-- The end-to-end scenario's file system: only TD's CSV exists, holding two
header-artifact rows and four valid bars. -/
def c5Files : String → Option (List RawRow) :=
  fun b => if b == "TD" then some tdFeed else none

/-- The end-to-end scenario's run: the insertion loop over the one-entry
catalog mapping TD to the provider symbol TD.TO, with every execute
accepted. -/
def c5Run : DB × List Msg :=
  insertLoopAux (fun _ => true) c5Files { committed := [], pending := [] } [] [("TD", "TD.TO")]

/-- C5 (counterexample): in the end-to-end scenario the store ends with four
rows, but every one of them is keyed by the provider symbol "TD.TO" — the
value the loop passes to `insert_query` — and not one row is keyed by the
logical name "TD". -/
theorem C5_counterexample :
    c5Run.1.committed.length = 4 ∧
    (∀ r ∈ c5Run.1.committed, r.stock_ticker = "TD.TO") ∧
    c5Run.1.committed.filter (fun r => r.stock_ticker == "TD") = [] := by
  decide

/-- C5 (amended): for the catalog mapping TD to "TD.TO" and a raw feed of two
header-artifact rows plus four valid daily bars, the normalizer emits
exactly the four well-formed rows, and persistence stores exactly four rows
keyed by ("TD.TO", date) — the provider symbol, not the logical name — with
no duplicate (ticker, date) key. -/
theorem C5_amended_theorem :
    (normalize_price_table tdFeed).1.length = 4 ∧
    (∀ r ∈ (normalize_price_table tdFeed).1, wellFormedRow r = true) ∧
    c5Run.1.committed.length = 4 ∧
    (∀ r ∈ c5Run.1.committed, r.stock_ticker = "TD.TO") ∧
    (∀ r ∈ c5Run.1.committed, keyCount c5Run.1.committed r.stock_ticker r.date = 1) := by
  decide

/-! ## Claim C1 — idempotence of persistence -/

/-- A one-bar batch: two header-artifact rows and a single valid bar. -/
def oneBatch : List RawRow := [artifactRow1, artifactRow2, bar1]

def c1Files : String → Option (List RawRow) :=
  fun b => if b == "TD" then some oneBatch else none

/-- The store after persisting the batch once, starting empty. -/
def c1Once : DB × List Msg :=
  insertLoopAux (fun _ => true) c1Files { committed := [], pending := [] } [] [("TD", "TD.TO")]

/-- The store after persisting the identical batch a second time. -/
def c1Twice : DB × List Msg :=
  insertLoopAux (fun _ => true) c1Files c1Once.1 [] [("TD", "TD.TO")]

/-- C1 (counterexample): `insert_query` is a plain INSERT with no conflict
handling, so persisting the identical one-row batch a second time appends the
row again: the store grows from one row to two and the (ticker, date) key
"TD.TO"/2020-01-02 now appears twice, while both runs report success. -/
theorem C1_counterexample :
    c1Once.1.committed.length = 1 ∧
    c1Twice.1.committed.length = 2 ∧
    keyCount c1Twice.1.committed "TD.TO" (RawField.date ⟨2020, 1, 2⟩) = 2 ∧
    c1Once.2 = [Msg.success "TD"] ∧ c1Twice.2 = [Msg.success "TD"] := by
  decide

/-- C1 (amended): persisting a batch for a ticker raises no error, but it is
not idempotent: each run appends the batch's normalized rows to the store
again, so a second identical run adds the same rows a second time. -/
theorem C1_amended_theorem (bank ticker : String) (raw : List RawRow) (db : DB)
    (hp : db.pending = []) :
    insertBank (fun _ => true) (fun _ => some raw) db bank ticker =
      Except.ok
        (⟨db.committed ++ (normalize_price_table raw).1.map (toStoredRow ticker), []⟩,
         [Msg.success bank]) ∧
    insertBank (fun _ => true) (fun _ => some raw)
        ⟨db.committed ++ (normalize_price_table raw).1.map (toStoredRow ticker), []⟩
        bank ticker =
      Except.ok
        (⟨(db.committed ++ (normalize_price_table raw).1.map (toStoredRow ticker)) ++
            (normalize_price_table raw).1.map (toStoredRow ticker), []⟩,
         [Msg.success bank]) := by
  have step : ∀ d : DB, d.pending = [] →
      insertBank (fun _ => true) (fun _ => some raw) d bank ticker =
        Except.ok
          (⟨d.committed ++ (normalize_price_table raw).1.map (toStoredRow ticker), []⟩,
           [Msg.success bank]) := by
    intro d hd
    simp only [insertBank]
    rw [execRows_allOk]
    simp [DB.commit, hd]
  exact ⟨step db hp, step _ rfl⟩

/-- C1 (witness): the amended statement at the concrete one-bar batch. -/
theorem C1_witness :
    insertBank (fun _ => true) (fun _ => some oneBatch) ⟨[], []⟩ "TD" "TD.TO" =
      Except.ok (⟨[toStoredRow "TD.TO" bar1], []⟩, [Msg.success "TD"]) ∧
    insertBank (fun _ => true) (fun _ => some oneBatch)
        ⟨[toStoredRow "TD.TO" bar1], []⟩ "TD" "TD.TO" =
      Except.ok (⟨[toStoredRow "TD.TO" bar1, toStoredRow "TD.TO" bar1], []⟩,
        [Msg.success "TD"]) :=
  C1_amended_theorem "TD" "TD.TO" oneBatch ⟨[], []⟩ rfl

/-! ## Claim C2 — per-ticker fault isolation of the loop -/

/-- A store that rejects every row of the TD batch and accepts all others. -/
def cexExec : StoredRow → Bool := fun r => !(r.stock_ticker == "TD.TO")

/-- TD's and Scotiabank's CSV files are both present and well-formed. -/
def cexFiles : String → Option (List RawRow) :=
  fun b =>
    if b == "TD" then some tdFeed
    else if b == "Scotiabank" then some scotiaFeed
    else none

/-- C2 (counterexample): TD's batch fails, and although Scotiabank's file
exists and every one of its rows would have been accepted, the run ends at
TD's exception: the final store is empty, no success is ever reported, so
TD's failure has destroyed Scotiabank's result. -/
theorem C2_counterexample :
    (runInsertion cexExec cexFiles).1.committed = [] ∧
    (runInsertion cexExec cexFiles).2 = [Msg.error] ∧
    cexFiles "Scotiabank" = some scotiaFeed ∧
    (∀ r ∈ (normalize_price_table scotiaFeed).1.map (toStoredRow "BNS.TO"),
      cexExec r = true) := by
  decide

/-- C2 (amended): a stage failure for one ticker is caught only by the single
`try`/`except` wrapping the whole loop: the run stops at the first failing
ticker, one catch-all error line is printed, the failed transaction's pending
rows are rolled back, and the remaining tickers of the catalog are not
processed at all. -/
theorem C2_amended_theorem (execOk : StoredRow → Bool)
    (files : String → Option (List RawRow)) (db db' : DB) (msgs : List Msg)
    (bank ticker : String) (rest : List (String × String))
    (hfail : insertBank execOk files db bank ticker = Except.error db') :
    insertLoopAux execOk files db msgs ((bank, ticker) :: rest) =
      ({ committed := db'.committed, pending := [] }, msgs ++ [Msg.error]) := by
  simp only [insertLoopAux]
  rw [hfail]

/-- C2 (witness): the amended statement at the concrete failing TD batch,
with Scotiabank and RBC still in the catalog's tail. -/
theorem C2_witness :
    insertLoopAux cexExec cexFiles ⟨[], []⟩ []
        (("TD", "TD.TO") :: [("Scotiabank", "BNS.TO"), ("RBC", "RY.TO")]) =
      ({ committed := [], pending := [] }, [] ++ [Msg.error]) :=
  C2_amended_theorem cexExec cexFiles ⟨[], []⟩ ⟨[], []⟩ [] "TD" "TD.TO"
    [("Scotiabank", "BNS.TO"), ("RBC", "RY.TO")] rfl

/-! ## Claim C6 — row-level fault isolation inside a batch -/

/-- A store that rejects exactly the rows dated 2020-01-02. -/
def c6Exec : StoredRow → Bool := fun r => !(r.date == RawField.date ⟨2020, 1, 2⟩)

def c6Files : String → Option (List RawRow) :=
  fun b => if b == "TD" then some tdFeed else none

/-- C6 (counterexample): in TD's four-bar batch only the first bar's insert
fails, and the sibling bar dated 2020-01-03 would have been accepted; yet
the run ends with an empty store and the single error line — the one bad row
aborted its whole batch instead of being reported for that row only. -/
theorem C6_counterexample :
    c6Exec (toStoredRow "TD.TO" bar1) = false ∧
    c6Exec (toStoredRow "TD.TO" bar2) = true ∧
    bar2 ∈ (normalize_price_table tdFeed).1 ∧
    (runInsertion c6Exec c6Files).1.committed = [] ∧
    (runInsertion c6Exec c6Files).2 = [Msg.error] := by
  decide

/-- C6 (amended): a failing `cursor.execute` raises out of the per-row loop
immediately: whatever rows follow the failing one in the batch, they are
never attempted and the store state is exactly the state at the failure
point, with nothing committed for the batch. -/
theorem C6_amended_theorem (execOk : StoredRow → Bool) (db : DB) (r : StoredRow)
    (rs : List StoredRow) (hr : execOk r = false) :
    execRows execOk db (r :: rs) = Except.error db := by
  simp [execRows, execRow, hr]

/-- C6 (witness): the amended statement at the concrete bad first row with a
good sibling behind it. -/
theorem C6_witness :
    execRows c6Exec ⟨[], []⟩ (toStoredRow "TD.TO" bar1 :: [toStoredRow "TD.TO" bar2]) =
      Except.error ⟨[], []⟩ :=
  C6_amended_theorem c6Exec ⟨[], []⟩ (toStoredRow "TD.TO" bar1)
    [toStoredRow "TD.TO" bar2] (by decide)

/-! ## Claim C7 — failure accounting -/

/-- A successful bank body emits no message when the bank's file is absent,
and exactly its success line when the file is present. -/
theorem insertBank_ok_msgs (execOk : StoredRow → Bool)
    (files : String → Option (List RawRow)) (db : DB) (bank ticker : String)
    (db' : DB) (m : List Msg)
    (h : insertBank execOk files db bank ticker = Except.ok (db', m)) :
    m = [] ∨ (m = [Msg.success bank] ∧ files bank ≠ none) := by
  unfold insertBank at h
  split at h
  · simp at h
    exact Or.inl h.2
  · rename_i raw hf
    split at h
    · simp at h
    · simp at h
      exact Or.inr ⟨h.2.symm, by simp [hf]⟩

/-- Whatever happens, the loop appends to the accumulated messages a suffix
holding at most one error line, and every success line in it names a bank
whose file was present. -/
theorem insertLoop_msgs (execOk : StoredRow → Bool)
    (files : String → Option (List RawRow)) (banks : List (String × String)) :
    ∀ (db : DB) (msgs : List Msg), ∃ suffix : List Msg,
      (insertLoopAux execOk files db msgs banks).2 = msgs ++ suffix ∧
      suffix.count Msg.error ≤ 1 ∧
      ∀ b, Msg.success b ∈ suffix → files b ≠ none := by
  induction banks with
  | nil =>
    intro db msgs
    exact ⟨[], by simp [insertLoopAux], by simp, by simp⟩
  | cons head tail ih =>
    intro db msgs
    obtain ⟨bank, ticker⟩ := head
    cases hins : insertBank execOk files db bank ticker with
    | error db' =>
      refine ⟨[Msg.error], ?_, by simp, by simp⟩
      simp only [insertLoopAux]
      rw [hins]
    | ok res =>
      obtain ⟨db', m⟩ := res
      obtain ⟨suffix, hs, hc, hb⟩ := ih db' (msgs ++ m)
      have hstep : (insertLoopAux execOk files db msgs ((bank, ticker) :: tail)).2 =
          (insertLoopAux execOk files db' (msgs ++ m) tail).2 := by
        simp only [insertLoopAux]
        rw [hins]
      rcases insertBank_ok_msgs execOk files db bank ticker db' m hins with hm | ⟨hm, hfile⟩
      · subst hm
        exact ⟨suffix, by rw [hstep, hs]; simp, hc, hb⟩
      · subst hm
        refine ⟨Msg.success bank :: suffix, ?_, ?_, ?_⟩
        · rw [hstep, hs]; simp
        · simpa using hc
        · intro b hbmem
          rcases List.mem_cons.mp hbmem with hbeq | hbtail
          · cases hbeq; exact hfile
          · exact hb b hbtail

/-- C7 (counterexample): with every catalog bank's input file absent — every
ticker's run is a total failure by the claim's own terms — the insertion
loop ends with an empty store and prints nothing at all: no per-ticker
summary, no failure kind, no dropped-row count. -/
theorem C7_counterexample :
    (runInsertion (fun _ => true) (fun _ => none)).1 = ⟨[], []⟩ ∧
    (runInsertion (fun _ => true) (fun _ => none)).2 = [] := by
  decide

/-- C7 (amended): the run surfaces at most one catch-all error line — the
`except Exception` print for the first exception, after which the run stops
— and per-bank success lines for banks whose file was present; a ticker
whose input file is absent is skipped silently, appearing in no output, and
nothing counts dropped rows. -/
theorem C7_amended_theorem (execOk : StoredRow → Bool)
    (files : String → Option (List RawRow)) :
    (runInsertion execOk files).2.count Msg.error ≤ 1 ∧
    ∀ b, Msg.success b ∈ (runInsertion execOk files).2 → files b ≠ none := by
  obtain ⟨suffix, hs, hc, hb⟩ :=
    insertLoop_msgs execOk files bank_tickers ⟨[], []⟩ []
  constructor
  · rw [runInsertion, hs]; simpa using hc
  · intro b hmem
    apply hb
    rw [runInsertion, hs] at hmem
    simpa using hmem

/-! ## Claim C8 — transactional isolation between tickers -/

/-- C8: a failure mid-way through one bank's batch ends the run with the
store's committed rows exactly as they were before that bank's batch began —
every row previously committed for any other bank is unchanged — and the
failed batch's in-flight rows, which lived only in the open transaction,
are rolled back and never observable as committed. -/
theorem C8_theorem (execOk : StoredRow → Bool)
    (files : String → Option (List RawRow)) (db db' : DB) (msgs : List Msg)
    (bank ticker : String) (rest : List (String × String))
    (hfail : insertBank execOk files db bank ticker = Except.error db') :
    (insertLoopAux execOk files db msgs ((bank, ticker) :: rest)).1.committed =
      db.committed ∧
    (insertLoopAux execOk files db msgs ((bank, ticker) :: rest)).1.pending = [] := by
  have hc : db'.committed = db.committed := by
    unfold insertBank at hfail
    split at hfail
    · simp at hfail
    · rename_i raw hf
      split at hfail
      · rename_i d hex
        simp at hfail
        rw [← hfail]
        exact execRows_error_committed execOk _ db d hex
      · simp at hfail
  constructor
  · simp only [insertLoopAux]; rw [hfail]; simpa using hc
  · simp only [insertLoopAux]; rw [hfail]

/-- A row committed for Scotiabank before TD's batch runs. -/
def rowB : StoredRow := toStoredRow "BNS.TO" (mkBar ⟨2020, 1, 2⟩ 60 61 59 59 500)

/-- The store holding Scotiabank's committed row, with no open transaction. -/
def dbB : DB := ⟨[rowB], []⟩

/-- A store that rejects every insert. -/
def c8Exec : StoredRow → Bool := fun _ => false

/-- Only TD's CSV file is present, holding the four-bar feed. -/
def c8Files : String → Option (List RawRow) :=
  fun b => if b == "TD" then some tdFeed else none

/-- C8 (witness): TD's batch fails at its first row; Scotiabank's committed
row survives unchanged and nothing of TD's batch is committed. -/
theorem C8_witness :
    (insertLoopAux c8Exec c8Files dbB [] [("TD", "TD.TO")]).1.committed =
      dbB.committed ∧
    (insertLoopAux c8Exec c8Files dbB [] [("TD", "TD.TO")]).1.pending = [] :=
  C8_theorem c8Exec c8Files dbB dbB [] "TD" "TD.TO" [] rfl

/-! ## Claim C9 — empty dividends are not a failure -/

/-- C9: when the fetched history holds no row for the requested ticker the
dividend projection is empty, so the pipeline writes nothing and raises
nothing — the outcome `.ok none` is a success, distinguishable from the
`.error` a failed fetch produces. -/
theorem C9_theorem (hist : List DivEvent) (ticker : String)
    (h : hist.filter (fun r => r.symbol == ticker) = []) :
    scrapeDividends (Except.ok hist) ticker = Except.ok none ∧
    (∀ e : Unit, scrapeDividends (Except.ok hist) ticker ≠ Except.error e) ∧
    scrapeDividends (Except.error ()) ticker = Except.error () := by
  refine ⟨?_, ?_, rfl⟩
  · simp [scrapeDividends, h]
  · intro e
    simp [scrapeDividends, h]

/-- C9 (witness): a history holding only other banks' rows yields the empty
projection for TD, no write, and no error. -/
theorem C9_witness :
    scrapeDividends (Except.ok [⟨"BMO.TO", 5⟩, ⟨"RY.TO", 3⟩]) "TD.TO" =
      Except.ok none ∧
    (∀ e : Unit, scrapeDividends (Except.ok [⟨"BMO.TO", 5⟩, ⟨"RY.TO", 3⟩]) "TD.TO" ≠
      Except.error e) ∧
    scrapeDividends (Except.error ()) "TD.TO" = Except.error () :=
  C9_theorem [⟨"BMO.TO", 5⟩, ⟨"RY.TO", 3⟩] "TD.TO" (by decide)

/-! ## Claim C10 — catalog coverage of the stage sequence -/

def c10Files : String → Option (List RawRow) := fun _ => some tdFeed

/-- C10 (counterexample): BMO is in the fetch catalog, but the insertion cell
re-binds the catalog without it: even with every bank's file present and
every insert accepted, the finished store holds rows for the three persisted
banks and not a single row for BMO's symbol — BMO is fetched but never
normalized and persisted. -/
theorem C10_counterexample :
    ("BMO", "BMO.TO") ∈ bank_tickers_fetch ∧
    ("BMO", "BMO.TO") ∉ bank_tickers ∧
    (runInsertion (fun _ => true) c10Files).1.committed ≠ [] ∧
    (runInsertion (fun _ => true) c10Files).1.committed.filter
      (fun r => r.stock_ticker == "BMO.TO") = [] := by
  decide

/-- C10 (amended): the insertion loop runs normalize → persist, in the
re-bound catalog's order, for exactly the three banks of cell 32's
`bank_tickers` — each such bank's normalized rows are committed under its
provider symbol and its success line printed — while BMO and CIBC, though in
the fetch catalog of cell 10, are absent from the persisted catalog. -/
theorem C10_amended_theorem (files : String → List RawRow) :
    (runInsertion (fun _ => true) (fun b => some (files b))).1.committed =
      (bank_tickers.map (fun p =>
        (normalize_price_table (files p.1)).1.map (toStoredRow p.2))).flatten ∧
    (runInsertion (fun _ => true) (fun b => some (files b))).2 =
      bank_tickers.map (fun p => Msg.success p.1) ∧
    ("BMO", "BMO.TO") ∈ bank_tickers_fetch ∧
    ("BMO", "BMO.TO") ∉ bank_tickers := by
  have h := insertLoop_allOk files bank_tickers ⟨[], []⟩ [] rfl
  refine ⟨?_, ?_, by decide, by decide⟩
  · rw [runInsertion, h]; simp
  · rw [runInsertion, h]; simp

end CanadianBanks
